import Mathlib

/-!
Verification development for the personal-accountant repository.

Shallow embedding of:
- `app/period_ym.py` (month-key codec and frequency validation)
- `app/routers/budget.py` (budget-line CSV import)
- `app/routers/transactions_import.py` (transaction CSV import)
- `app/services/transactions.py` and `app/routers/transactions.py`
  (transaction creation and edit)

Python strings are modelled as Lean `String`s, working over their `.data`
character lists; Python `int` as `Int` (`Nat` where provably nonnegative);
Python `float` amounts as `Rat` (no claim depends on binary float rounding);
exceptions as `Except String`.
-/

deriving instance DecidableEq for Except

namespace Accountant

/-! ## Python string primitives (models of the library functions used) -/

/-- Model of the whitespace class used by Python `str.strip()` (ASCII part). -/
def pyIsSpace (c : Char) : Bool :=
  c = ' ' ∨ c = '\t' ∨ c = '\n' ∨ c = '\r' ∨ c = '\x0b' ∨ c = '\x0c'

/-- Model of Python `str.isdigit` restricted to ASCII digits. -/
def pyIsDigit (c : Char) : Bool :=
  48 ≤ c.toNat ∧ c.toNat ≤ 57

def stripL (l : List Char) : List Char :=
  ((l.dropWhile pyIsSpace).reverse.dropWhile pyIsSpace).reverse

/-- Model of Python `str.strip()`. -/
def pyStrip (s : String) : String := ⟨stripL s.data⟩

/-- Model of Python `str.split(sep)` for a one-character separator:
always returns at least one (possibly empty) part. -/
def splitChar (sep : Char) : List Char → List (List Char)
  | [] => [[]]
  | c :: cs =>
    if c = sep then [] :: splitChar sep cs
    else
      match splitChar sep cs with
      | [] => [[c]]
      | p :: ps => (c :: p) :: ps

def digitVal (c : Char) : Nat := c.toNat - 48

/-- Value of an all-digit character list, as computed by Python `int(s)`. -/
def digitsVal (l : List Char) : Nat :=
  l.foldl (fun a c => a * 10 + digitVal c) 0

/-- Model of Python `str.isdigit()` on a character list
(nonempty and all digits). -/
def pyIsDigitStrL (l : List Char) : Bool :=
  !l.isEmpty && l.all pyIsDigit

/-- Model of Python `str.lower()` on one character (ASCII part). -/
def pyLowerChar (c : Char) : Char :=
  match c with
  | 'A' => 'a' | 'B' => 'b' | 'C' => 'c' | 'D' => 'd' | 'E' => 'e'
  | 'F' => 'f' | 'G' => 'g' | 'H' => 'h' | 'I' => 'i' | 'J' => 'j'
  | 'K' => 'k' | 'L' => 'l' | 'M' => 'm' | 'N' => 'n' | 'O' => 'o'
  | 'P' => 'p' | 'Q' => 'q' | 'R' => 'r' | 'S' => 's' | 'T' => 't'
  | 'U' => 'u' | 'V' => 'v' | 'W' => 'w' | 'X' => 'x' | 'Y' => 'y'
  | 'Z' => 'z'
  | c => c

/-- Model of Python `str.lower()` (ASCII part). -/
def pyLower (s : String) : String := ⟨s.data.map pyLowerChar⟩

/-- One decimal digit character, as printed by Python format specifiers. -/
def digitChar10 (d : Nat) : Char :=
  match d with
  | 0 => '0' | 1 => '1' | 2 => '2' | 3 => '3' | 4 => '4'
  | 5 => '5' | 6 => '6' | 7 => '7' | 8 => '8' | _ => '9'

/-- Model of the Python format `f"\x7bn:02d\x7d"` for `n < 100`
(the only way the source applies it). -/
def pad2 (n : Nat) : List Char := [digitChar10 (n / 10), digitChar10 (n % 10)]

/-! ## `app/period_ym.py` -/

/-- Calendar date as produced by Python `datetime.date`. -/
structure PyDate where
  year : Nat
  month : Nat
  day : Nat
deriving DecidableEq

/-- `ym_from_date` from `app/period_ym.py`: `d.year * 100 + d.month`. -/
def ym_from_date (d : PyDate) : Int :=
  (d.year : Int) * 100 + (d.month : Int)

/-- `_yyyy_from_two_digit` from `app/period_ym.py`. -/
def yyyy_from_two_digit (two_digit : Int) : Except String Int :=
  if two_digit < 0 ∨ two_digit > 99 then .error "YY must be 00–99"
  else .ok (2000 + two_digit)

/-- `mm_yy_to_ym` from `app/period_ym.py` (spec name: `parse_human`). -/
def mm_yy_to_ym (mm_yy : String) : Except String Int :=
  if mm_yy.data.isEmpty then .error "MM/YY string is required"
  else
    match splitChar '/' (stripL mm_yy.data) with
    | [p1, p2] =>
      let mm := stripL p1
      let yy := stripL p2
      if mm.length ≠ 2 ∨ yy.length ≠ 2 ∨ ¬ pyIsDigitStrL mm ∨ ¬ pyIsDigitStrL yy then
        .error "Invalid MM/YY; use two digits for month and year, e.g. \x2701/25\x27"
      else
        let m : Int := (digitsVal mm : Int)
        if m < 1 ∨ m > 12 then .error "Month must be 01–12"
        else
          match yyyy_from_two_digit (digitsVal yy) with
          | .error e => .error e
          | .ok y => .ok (y * 100 + m)
    | _ => .error "Invalid MM/YY format; expected \x27MM/YY\x27"

/-- `ym_to_mm_yy` from `app/period_ym.py` (spec name: `format_human`). -/
def ym_to_mm_yy (ym : Int) : Except String String :=
  if ym < 10000 then .error "ym must be an integer like 202501"
  else
    let n := ym.toNat
    let y := n / 100
    let m := n % 100
    if m < 1 ∨ m > 12 then .error "Invalid ym month component"
    else .ok ⟨pad2 m ++ '/' :: pad2 (y % 100)⟩

/-- `validate_line_frequency_fields` from `app/period_ym.py`. -/
def validate_line_frequency_fields (frequency : Option String)
    (start_ym end_ym one_time_ym : Option Int) : Except String Unit :=
  let freq := pyLower (frequency.getD "")
  if freq = "monthly" then
    match start_ym with
    | none => .error "start_ym required for monthly"
    | some s =>
      if (end_ym.any fun e => decide (e < s)) then
        .error "end_ym must be >= start_ym"
      else if one_time_ym.isSome then
        .error "one_time_ym must be empty for monthly"
      else .ok ()
  else if freq = "one_time" then
    if one_time_ym.isNone then .error "one_time_ym required for one_time"
    else if start_ym.isSome ∨ end_ym.isSome then
      .error "start_ym/end_ym must be empty for one_time"
    else .ok ()
  else .error "frequency must be \x27monthly\x27 or \x27one_time\x27"

/-! ## Data model (`app/models.py`) -/

inductive LineType where
  | income
  | expense
deriving DecidableEq

inductive Frequency where
  | monthly
  | one_time
deriving DecidableEq

structure Budget where
  id : Nat
  user_id : Nat
  name : String
  is_active : Bool
deriving DecidableEq

structure BudgetLine where
  budget_id : Nat
  type : LineType
  category : String
  subcategory : Option String
  amount : Rat
  currency : String
  frequency : Frequency
  start_ym : Option Int
  end_ym : Option Int
  one_time_ym : Option Int
  is_active : Bool
deriving DecidableEq

structure Transaction where
  budget_id : Nat
  type : LineType
  category : String
  subcategory : Option String
  amount : Rat
  currency : String
  txn_date : PyDate
  ym : Int
  notes : Option String
deriving DecidableEq

/-- The relational store, reduced to the tables the claims touch.
Row order models insertion order (SQLite rowid order, which is what an
unordered `SELECT ... LIMIT 1` walks). -/
structure DB where
  budgets : List Budget
  next_budget_id : Nat
  budget_lines : List BudgetLine
  transactions : List Transaction
deriving DecidableEq

/-- `_get_or_create_budget` as written identically in `app/routers/budget.py`,
`app/routers/transactions.py` and `app/routers/transactions_import.py`:
first active budget of the user, else create-and-commit one. -/
def get_or_create_budget (db : DB) (user_id : Nat) : Budget × DB :=
  match db.budgets.find? (fun b => b.user_id == user_id && b.is_active) with
  | some b => (b, db)
  | none =>
    let b : Budget :=
      { id := db.next_budget_id, user_id := user_id, name := "Main", is_active := true }
    (b, { db with budgets := db.budgets ++ [b],
                  next_budget_id := db.next_budget_id + 1 })

/-! ## Modelled library functions: `float(...)` and `date.fromisoformat` -/

/-- Model of Python `float(s)` on the decimal forms the imports receive:
optional sign, digits with at most one decimal point, surrounding
whitespace. Values are represented exactly as rationals; only parse
success/failure and the parsed value are relied on by any claim. -/
def pyFloat (s : String) : Except String Rat :=
  let l := stripL s.data
  let signed : Int × List Char :=
    match l with
    | '-' :: rest => (-1, rest)
    | '+' :: rest => (1, rest)
    | _ => (1, l)
  let sign := signed.1
  match splitChar '.' signed.2 with
  | [ip] =>
    if ip ≠ [] ∧ ip.all pyIsDigit then .ok ((sign * (digitsVal ip : Int) : Int) : Rat)
    else .error ("could not convert string to float: " ++ s)
  | [ip, fp] =>
    if (ip ≠ [] ∨ fp ≠ []) ∧ ip.all pyIsDigit ∧ fp.all pyIsDigit then
      .ok ((sign : Rat) * ((digitsVal ip : Rat) + (digitsVal fp : Rat) / ((10 : Rat) ^ fp.length)))
    else .error ("could not convert string to float: " ++ s)
  | _ => .error ("could not convert string to float: " ++ s)

def is_leap (y : Nat) : Bool := (y % 4 == 0 && y % 100 != 0) || y % 400 == 0

def days_in_month (y m : Nat) : Nat :=
  if m = 2 then (if is_leap y then 29 else 28)
  else if m = 4 ∨ m = 6 ∨ m = 9 ∨ m = 11 then 30
  else 31

/-- Model of Python `date.fromisoformat` on the `YYYY-MM-DD` form the
source feeds it (only success/failure and the parsed date matter: callers
replace the error text). -/
def fromisoformat (s : String) : Except String PyDate :=
  match s.data with
  | [y1, y2, y3, y4, h1, m1, m2, h2, d1, d2] =>
    if h1 = '-' ∧ h2 = '-' ∧ [y1, y2, y3, y4].all pyIsDigit ∧
        [m1, m2].all pyIsDigit ∧ [d1, d2].all pyIsDigit then
      let y := digitsVal [y1, y2, y3, y4]
      let m := digitsVal [m1, m2]
      let d := digitsVal [d1, d2]
      if 1 ≤ y ∧ 1 ≤ m ∧ m ≤ 12 ∧ 1 ≤ d ∧ d ≤ days_in_month y m then .ok ⟨y, m, d⟩
      else .error ("Invalid isoformat string: " ++ s)
    else .error ("Invalid isoformat string: " ++ s)
  | _ => .error ("Invalid isoformat string: " ++ s)

/-- `LineType(t)` enum construction: raises `ValueError` on other strings. -/
def lineTypeOf (s : String) : Except String LineType :=
  if s = "income" then .ok .income
  else if s = "expense" then .ok .expense
  else .error ("\x27" ++ s ++ "\x27 is not a valid LineType")

/-- `Frequency(f)` enum construction: raises `ValueError` on other strings. -/
def frequencyOf (s : String) : Except String Frequency :=
  if s = "monthly" then .ok .monthly
  else if s = "one_time" then .ok .one_time
  else .error ("\x27" ++ s ++ "\x27 is not a valid Frequency")

/-! ## `app/services/transactions.py` -/

/-- `create_transaction`: builds and commits one transaction, deriving `ym`
from `txn_date`. (The router form path and the CSV import both call it.) -/
def create_transaction (budget_id : Nat) (type : LineType) (category : String)
    (subcategory : Option String) (amount : Rat) (currency : String)
    (txn_date : PyDate) (notes : Option String) : Transaction :=
  { budget_id := budget_id
    type := type
    category := category
    subcategory := subcategory.bind (fun v => if v = "" then none else some v)
    amount := amount
    currency := if currency = "" then "EUR" else currency
    txn_date := txn_date
    ym := ym_from_date txn_date
    notes := notes }

/-! ## Budget-line CSV import (`app/routers/budget.py`, `lines_import_submit`) -/

def REQUIRED_COLS : List String :=
  ["type", "category", "subcategory", "amount", "currency", "frequency",
   "start_mm_yy", "end_mm_yy", "one_time_mm_yy"]

/-- `csv.DictReader` row access: `row[name]` is the cell under column
`name`, or `None` (restval) when the row is shorter than the header. -/
def rowGet (fieldnames : List String) (cells : List String) (name : String) :
    Option String :=
  match fieldnames.findIdx? (fun c => c == name) with
  | some i => cells.get? i
  | none => none

/-- The body of the per-row `try` block of `lines_import_submit`:
field extraction, the missing-fields check, conditional month parsing,
frequency validation and entity construction, failing with the first
raised `ValueError` message. -/
def process_line_row (budget_id : Nat) (fieldnames : List String)
    (cells : List String) : Except String BudgetLine :=
  let t := pyLower (pyStrip ((rowGet fieldnames cells "type").getD ""))
  let cat := pyStrip ((rowGet fieldnames cells "category").getD "")
  let sub0 := pyStrip ((rowGet fieldnames cells "subcategory").getD "")
  let sub := if sub0 = "" then none else some sub0
  let amtField := (rowGet fieldnames cells "amount").getD ""
  match (if amtField = "" then .ok none else Except.map some (pyFloat amtField) :
      Except String (Option Rat)) with
  | .error e => .error e
  | .ok amt =>
    let cur0 := (rowGet fieldnames cells "currency").getD ""
    let cur := pyStrip (if cur0 = "" then "EUR" else cur0)
    let freq := pyLower (pyStrip ((rowGet fieldnames cells "frequency").getD ""))
    let start_mm_yy := pyStrip ((rowGet fieldnames cells "start_mm_yy").getD "")
    let end_mm_yy := pyStrip ((rowGet fieldnames cells "end_mm_yy").getD "")
    let one_time_mm_yy := pyStrip ((rowGet fieldnames cells "one_time_mm_yy").getD "")
    if t = "" ∨ cat = "" ∨ amt = none ∨ freq = "" then
      .error "Missing one of: type, category, amount, frequency."
    else
      match (if freq = "monthly" ∧ start_mm_yy ≠ "" then
          Except.map some (mm_yy_to_ym start_mm_yy) else .ok none :
          Except String (Option Int)) with
      | .error e => .error e
      | .ok start_ym =>
        match (if freq = "monthly" ∧ end_mm_yy ≠ "" then
            Except.map some (mm_yy_to_ym end_mm_yy) else .ok none :
            Except String (Option Int)) with
        | .error e => .error e
        | .ok end_ym =>
          match (if freq = "one_time" ∧ one_time_mm_yy ≠ "" then
              Except.map some (mm_yy_to_ym one_time_mm_yy) else .ok none :
              Except String (Option Int)) with
          | .error e => .error e
          | .ok one_time_ym =>
            match validate_line_frequency_fields (some freq) start_ym end_ym
                one_time_ym with
            | .error e => .error e
            | .ok _ =>
              match lineTypeOf t with
              | .error e => .error e
              | .ok ty =>
                match frequencyOf freq with
                | .error e => .error e
                | .ok fr =>
                  -- the missing-fields check above threw when `amt` was `none`
                  .ok { budget_id := budget_id, type := ty, category := cat
                        subcategory := sub, amount := amt.getD 0
                        currency := if cur = "" then "EUR" else cur
                        frequency := fr, start_ym := start_ym, end_ym := end_ym
                        one_time_ym := one_time_ym, is_active := true }

/-- The `for idx, row in enumerate(reader, start=2)` loop: each row is
processed on its own; successes are added to the session in order, each
failure appends one `Row \x7bidx\x7d: ...` message, and the loop always
continues. -/
def lines_import_rows (budget_id : Nat) (fieldnames : List String) :
    List (List String) → Nat → List BudgetLine × List String
  | [], _ => ([], [])
  | cells :: rest, idx =>
    let r := lines_import_rows budget_id fieldnames rest (idx + 1)
    match process_line_row budget_id fieldnames cells with
    | .ok line => (line :: r.1, r.2)
    | .error e => (r.1, ("Row " ++ toString idx ++ ": " ++ e) :: r.2)

inductive LinesReply where
  | headerMismatch
  | done (created : Nat) (errors : List String)
deriving DecidableEq

/-- `lines_import_submit` (budget-line CSV import): header check over the
`DictReader` fieldnames (membership of every required column), then the
target budget, then the row loop; all added lines are committed at the
end regardless of row errors. -/
def lines_import_submit (user_id : Nat) (fieldnames : Option (List String))
    (rows : List (List String)) (db : DB) : LinesReply × DB :=
  match fieldnames with
  | none => (.headerMismatch, db)
  | some fns =>
    if REQUIRED_COLS.all (fun c => fns.contains c) then
      let bdb := get_or_create_budget db user_id
      let r := lines_import_rows bdb.1.id fns rows 2
      (.done r.1.length r.2,
       { bdb.2 with budget_lines := bdb.2.budget_lines ++ r.1 })
    else (.headerMismatch, db)

/-! ## Transaction CSV import (`app/routers/transactions_import.py`,
`import_submit`) -/

def EXPECTED_HEADER : List String :=
  ["date", "type", "category", "subcategory", "amount", "currency", "notes"]

/-- The body of the per-row `try` block of the transaction `import_submit`:
pad/truncate to 7 cells, strip, then the field checks in source order,
ending in `create_transaction`. -/
def process_tx_row (budget_id : Nat) (cells : List String) :
    Except String Transaction :=
  -- `row = (row + [""] * 7)[:7]` followed by stripping each cell
  let s_date := pyStrip (cells.getD 0 "")
  let s_type := pyStrip (cells.getD 1 "")
  let s_cat := pyStrip (cells.getD 2 "")
  let s_sub := pyStrip (cells.getD 3 "")
  let s_amount := pyStrip (cells.getD 4 "")
  let s_currency := pyStrip (cells.getD 5 "")
  let s_notes := pyStrip (cells.getD 6 "")
  if s_date = "" then .error "date is required (YYYY-MM-DD)"
  else
    match fromisoformat s_date with
    | .error _ => .error "date must be in YYYY-MM-DD format"
    | .ok txn_dt =>
      let s_type_l := pyLower s_type
      if s_type_l ≠ "income" ∧ s_type_l ≠ "expense" then
        .error "type must be \x27income\x27 or \x27expense\x27"
      else if s_cat = "" then .error "category is required"
      else if s_amount = "" then .error "amount is required"
      else
        match pyFloat s_amount with
        | .error _ => .error "amount must be a number"
        | .ok amount =>
          let currency := if s_currency = "" then "EUR" else s_currency
          match lineTypeOf s_type_l with
          | .error e => .error e
          | .ok ty =>
            .ok (create_transaction budget_id ty s_cat
              (if s_sub = "" then none else some s_sub) amount currency txn_dt
              (if s_notes = "" then none else some s_notes))

/-- The transaction import loop: `row_idx` starts at 1 and is incremented
at the top of the loop, before it is used in any rejection message. -/
def tx_import_rows (budget_id : Nat) :
    List (List String) → Nat → List Transaction × List String
  | [], _ => ([], [])
  | cells :: rest, row_idx =>
    let idx := row_idx + 1
    let r := tx_import_rows budget_id rest idx
    match process_tx_row budget_id cells with
    | .ok t => (t :: r.1, r.2)
    | .error e => (r.1, ("Row " ++ toString idx ++ ": " ++ e) :: r.2)

inductive TxReply where
  | emptyCsv
  | headerMismatch
  | done (imported : Nat) (errors : List String)
deriving DecidableEq

/-- `import_submit` of `app/routers/transactions_import.py`: the first CSV
record is the header, compared for exact ordered equality with
`EXPECTED_HEADER`; only then is the budget resolved and the loop run. -/
def tx_import_submit (user_id : Nat) (records : List (List String)) (db : DB) :
    TxReply × DB :=
  match records with
  | [] => (.emptyCsv, db)
  | header :: dataRows =>
    if header = EXPECTED_HEADER then
      let bdb := get_or_create_budget db user_id
      let r := tx_import_rows bdb.1.id dataRows 1
      (.done r.1.length r.2,
       { bdb.2 with transactions := bdb.2.transactions ++ r.1 })
    else (.headerMismatch, db)

/-! ## Transaction edit (`app/routers/transactions.py`, `edit_submit`) -/

structure TxnForm where
  type : Option String
  category : Option String
  subcategory : Option String
  amount : Option String
  currency : Option String
  txn_date : Option String
  notes : Option String

/-- The `try` block of `edit_submit` that mutates the loaded transaction
field by field; the returned transaction is the object's state when the
block finishes or first raises (mutations before the raise stick). -/
def edit_submit_core (txn : Transaction) (f : TxnForm) :
    Except String Unit × Transaction :=
  let ttype := pyLower (pyStrip (f.type.getD ""))
  match lineTypeOf ttype with
  | .error e => (.error e, txn)
  | .ok ty =>
    let sub0 := pyStrip (f.subcategory.getD "")
    let txn := { txn with
      type := ty
      category := pyStrip (f.category.getD "")
      subcategory := if sub0 = "" then none else some sub0 }
    let a0 := f.amount.getD ""
    match pyFloat (if a0 = "" then "0" else a0) with
    | .error e => (.error e, txn)
    | .ok a =>
      let c0 := f.currency.getD ""
      let txn := { txn with
        amount := a
        currency := pyStrip (if c0 = "" then "EUR" else c0) }
      let txn_date_str := pyStrip (f.txn_date.getD "")
      match fromisoformat txn_date_str with
      | .error e => (.error e, txn)
      | .ok d =>
        let txn := { txn with
          txn_date := d
          ym := ym_from_date d
          notes := f.notes.bind (fun v => if v = "" then none else some v) }
        if txn.category = "" then (.error "category is required", txn)
        else (.ok (), txn)

/-! ## Concrete data used by witnesses -/

def db0 : DB :=
  { budgets := [], next_budget_id := 0, budget_lines := [], transactions := [] }

def wrows : List (List String) :=
  [["income", "Salary", "", "1000", "EUR", "monthly", "01/25", "12/25", ""],
   ["expense", "Internet", "", "30", "EUR", "monthly", "", "", ""]]

def txn0 : Transaction :=
  { budget_id := 0, type := .income, category := "Salary", subcategory := none,
    amount := 0, currency := "EUR", txn_date := ⟨2025, 1, 15⟩, ym := 202501,
    notes := none }

def form0 : TxnForm :=
  { type := some "expense", category := some "Food", subcategory := none,
    amount := some "12.5", currency := none, txn_date := some "2025-03-02",
    notes := none }

example : mm_yy_to_ym "01/25" = .ok 202501 := by decide
example : mm_yy_to_ym "12/30" = .ok 203012 := by decide
example : mm_yy_to_ym "01/2025" =
    .error "Invalid MM/YY; use two digits for month and year, e.g. \x2701/25\x27" := by decide
example : mm_yy_to_ym "13/25" = .error "Month must be 01–12" := by decide
example : mm_yy_to_ym "1/25" =
    .error "Invalid MM/YY; use two digits for month and year, e.g. \x2701/25\x27" := by decide
example : mm_yy_to_ym " 01 / 25 " = .ok 202501 := by decide
example : ym_to_mm_yy 202501 = .ok "01/25" := by decide
example : ym_to_mm_yy 10001 = .ok "01/00" := by decide
example : validate_line_frequency_fields (some "Monthly") (some 202501) none none = .ok () := by
  decide
example : validate_line_frequency_fields (some "monthly") none none none =
    .error "start_ym required for monthly" := by decide

/-! ## Lemmas on the string primitives -/

theorem pyLowerChar_idem (c : Char) : pyLowerChar (pyLowerChar c) = pyLowerChar c := by
  conv_lhs => arg 1; rw [pyLowerChar.eq_def]
  split <;> rfl

theorem pyLower_idem (s : String) : pyLower (pyLower s) = pyLower s := by
  unfold pyLower
  refine congrArg String.mk ?_
  simp [List.map_map, Function.comp, pyLowerChar_idem]

theorem dropWhile_eq_self_of_none (p : Char → Bool) (l : List Char)
    (h : ∀ c ∈ l, p c = false) : l.dropWhile p = l := by
  cases l with
  | nil => rfl
  | cons c cs => simp [List.dropWhile_cons, h c (by simp)]

theorem stripL_eq_self (l : List Char) (h : ∀ c ∈ l, pyIsSpace c = false) :
    stripL l = l := by
  unfold stripL
  rw [dropWhile_eq_self_of_none _ _ h,
    dropWhile_eq_self_of_none _ _ (fun c hc => h c (List.mem_reverse.mp hc)),
    List.reverse_reverse]

theorem splitChar_ne_nil (sep : Char) (l : List Char) : splitChar sep l ≠ [] := by
  induction l with
  | nil => simp [splitChar]
  | cons c cs ih =>
    unfold splitChar
    split
    · simp
    · split <;> simp

theorem splitChar_nil (sep : Char) : splitChar sep [] = [[]] := rfl

theorem splitChar_cons (sep c : Char) (cs : List Char) :
    splitChar sep (c :: cs) =
      if c = sep then [] :: splitChar sep cs
      else match splitChar sep cs with
        | [] => [[c]]
        | p :: ps => (c :: p) :: ps := rfl

theorem splitChar_cons_sep (sep : Char) (cs : List Char) :
    splitChar sep (sep :: cs) = [] :: splitChar sep cs := by
  rw [splitChar_cons, if_pos rfl]

theorem splitChar_cons_ne (sep c : Char) (cs p : List Char) (ps : List (List Char))
    (hc : c ≠ sep) (hsp : splitChar sep cs = p :: ps) :
    splitChar sep (c :: cs) = (c :: p) :: ps := by
  rw [splitChar_cons, if_neg hc, hsp]

theorem splitChar_eq_single_iff (sep : Char) (l x : List Char) :
    splitChar sep l = [x] ↔ sep ∉ x ∧ l = x := by
  induction l generalizing x with
  | nil =>
    rw [splitChar_nil]
    constructor
    · intro h
      have hx : ([] : List Char) = x := by simpa using h
      subst hx
      simp
    · rintro ⟨-, h⟩
      subst h
      rfl
  | cons c cs ih =>
    by_cases hc : c = sep
    · subst hc
      rw [splitChar_cons_sep]
      constructor
      · intro h
        obtain ⟨-, h2⟩ : ([] : List Char) = x ∧ splitChar c cs = [] := by simpa using h
        exact absurd h2 (splitChar_ne_nil _ _)
      · rintro ⟨hx, hl⟩
        subst hl
        exact absurd (List.mem_cons_self c cs) hx
    · cases hsp : splitChar sep cs with
      | nil => exact absurd hsp (splitChar_ne_nil _ _)
      | cons p ps =>
        rw [splitChar_cons_ne sep c cs p ps hc hsp]
        constructor
        · intro h
          obtain ⟨h1, h2⟩ : c :: p = x ∧ ps = [] := by simpa using h
          subst h2
          obtain ⟨hnp, hcs⟩ := (ih p).mp hsp
          subst h1
          refine ⟨?_, by rw [hcs]⟩
          intro hmem
          rcases List.mem_cons.mp hmem with h | h
          · exact hc h.symm
          · exact hnp h
        · rintro ⟨hx, hl⟩
          subst hl
          have hns : sep ∉ cs := fun hmem => hx (List.mem_cons_of_mem _ hmem)
          have hone : splitChar sep cs = [cs] := (ih cs).mpr ⟨hns, rfl⟩
          rw [hone] at hsp
          obtain ⟨hp1, hp2⟩ : p = cs ∧ ps = [] := by simpa using hsp.symm
          rw [hp1, hp2]

theorem splitChar_eq_pair_iff (sep : Char) (l a b : List Char) :
    splitChar sep l = [a, b] ↔ sep ∉ a ∧ sep ∉ b ∧ l = a ++ sep :: b := by
  induction l generalizing a with
  | nil =>
    rw [splitChar_nil]
    constructor
    · intro h
      exact absurd h (by simp)
    · rintro ⟨-, -, h⟩
      exact absurd h (by simp)
  | cons c cs ih =>
    by_cases hc : c = sep
    · subst hc
      rw [splitChar_cons_sep]
      constructor
      · intro h
        obtain ⟨h1, h2⟩ : ([] : List Char) = a ∧ splitChar c cs = [b] := by simpa using h
        obtain ⟨hnb, hcs⟩ := (splitChar_eq_single_iff c cs b).mp h2
        refine ⟨by simp [← h1], hnb, ?_⟩
        rw [← h1, hcs]
        simp
      · rintro ⟨ha, hb, hl⟩
        cases a with
        | nil =>
          simp only [List.nil_append, List.cons.injEq, true_and] at hl
          simp only [List.cons.injEq, true_and]
          exact (splitChar_eq_single_iff c cs b).mpr ⟨hb, hl⟩
        | cons a0 a' =>
          simp only [List.cons_append, List.cons.injEq] at hl
          exact absurd (by rw [hl.1]; exact List.mem_cons_self a0 a') ha
    · cases hsp : splitChar sep cs with
      | nil => exact absurd hsp (splitChar_ne_nil _ _)
      | cons p ps =>
        rw [splitChar_cons_ne sep c cs p ps hc hsp]
        constructor
        · intro h
          obtain ⟨h1, h2⟩ : c :: p = a ∧ ps = [b] := by simpa using h
          have hcs : splitChar sep cs = [p, b] := by rw [hsp, h2]
          obtain ⟨hnp, hnb, hcseq⟩ := (ih p).mp hcs
          refine ⟨?_, hnb, ?_⟩
          · rw [← h1]
            intro hmem
            rcases List.mem_cons.mp hmem with h | h
            · exact hc h.symm
            · exact hnp h
          · rw [← h1, hcseq]
            simp
        · rintro ⟨ha, hb, hl⟩
          cases a with
          | nil =>
            simp only [List.nil_append, List.cons.injEq] at hl
            exact absurd hl.1 hc
          | cons a0 a' =>
            simp only [List.cons_append, List.cons.injEq] at hl
            obtain ⟨h1, h2⟩ := hl
            subst h1
            have hna : sep ∉ a' := fun hmem => ha (List.mem_cons_of_mem _ hmem)
            have hcs : splitChar sep cs = [a', b] := (ih a').mpr ⟨hna, hb, h2⟩
            rw [hsp] at hcs
            obtain ⟨hp1, hp2⟩ : p = a' ∧ ps = [b] := by simpa using hcs
            rw [hp1, hp2]


theorem pyIsDigit_bounds {c : Char} (h : pyIsDigit c = true) :
    48 ≤ c.toNat ∧ c.toNat ≤ 57 := by
  simpa [pyIsDigit] using h

theorem digitVal_le_nine {c : Char} (h : pyIsDigit c = true) : digitVal c ≤ 9 := by
  obtain ⟨h1, h2⟩ := pyIsDigit_bounds h
  unfold digitVal
  omega

theorem digitsVal_two (c1 c2 : Char) :
    digitsVal [c1, c2] = digitVal c1 * 10 + digitVal c2 := by
  simp [digitsVal, List.foldl]

theorem digitsVal_le_99 {l : List Char} (hlen : l.length = 2)
    (hdig : l.all pyIsDigit = true) : digitsVal l ≤ 99 := by
  cases l with
  | nil => simp at hlen
  | cons c1 t =>
    cases t with
    | nil => simp at hlen
    | cons c2 t2 =>
      cases t2 with
      | cons c3 t3 => simp at hlen
      | nil =>
        simp only [List.all_cons, List.all_nil, Bool.and_true, Bool.and_eq_true] at hdig
        have h1 := digitVal_le_nine hdig.1
        have h2 := digitVal_le_nine hdig.2
        rw [digitsVal_two]
        omega

theorem digitChar10_spec (d : Nat) (h : d < 10) :
    pyIsDigit (digitChar10 d) = true ∧ digitVal (digitChar10 d) = d ∧
      digitChar10 d ≠ '/' ∧ pyIsSpace (digitChar10 d) = false := by
  interval_cases d <;> exact ⟨by decide, by decide, by decide, by decide⟩

theorem pad2_length (n : Nat) : (pad2 n).length = 2 := rfl

theorem pad2_props (n : Nat) (h : n < 100) :
    (pad2 n).all pyIsDigit = true ∧ digitsVal (pad2 n) = n ∧
      ('/' ∉ pad2 n) ∧ (∀ c ∈ pad2 n, pyIsSpace c = false) := by
  have h1 := digitChar10_spec (n / 10) (by omega)
  have h2 := digitChar10_spec (n % 10) (by omega)
  unfold pad2
  refine ⟨?_, ?_, ?_, ?_⟩
  · simp [List.all_cons, h1.1, h2.1]
  · rw [digitsVal_two, h1.2.1, h2.2.1]
    omega
  · intro hmem
    rcases List.mem_cons.mp hmem with hx | hx
    · exact h1.2.2.1 hx.symm
    · rw [List.mem_singleton] at hx
      exact h2.2.2.1 hx.symm
  · intro c hmem
    rcases List.mem_cons.mp hmem with hx | hx
    · rw [hx]; exact h1.2.2.2
    · rw [List.mem_singleton] at hx
      rw [hx]; exact h2.2.2.2


theorem mm_core_iff (p1 p2 : List Char) (v : Int) :
    (if (stripL p1).length ≠ 2 ∨ (stripL p2).length ≠ 2 ∨
        ¬ pyIsDigitStrL (stripL p1) ∨ ¬ pyIsDigitStrL (stripL p2) then
       (.error "Invalid MM/YY; use two digits for month and year, e.g. \x2701/25\x27" :
         Except String Int)
     else if (digitsVal (stripL p1) : Int) < 1 ∨ (digitsVal (stripL p1) : Int) > 12 then
       .error "Month must be 01–12"
     else
       match yyyy_from_two_digit (digitsVal (stripL p2)) with
       | .error e => .error e
       | .ok y => .ok (y * 100 + (digitsVal (stripL p1) : Int))) = .ok v ↔
      (stripL p1).length = 2 ∧ (stripL p2).length = 2 ∧
        (stripL p1).all pyIsDigit = true ∧ (stripL p2).all pyIsDigit = true ∧
        1 ≤ digitsVal (stripL p1) ∧ digitsVal (stripL p1) ≤ 12 ∧
        v = (2000 + (digitsVal (stripL p2) : Int)) * 100 + (digitsVal (stripL p1) : Int) := by
  by_cases hc1 : (stripL p1).length ≠ 2 ∨ (stripL p2).length ≠ 2 ∨
      ¬ pyIsDigitStrL (stripL p1) ∨ ¬ pyIsDigitStrL (stripL p2)
  · rw [if_pos hc1]
    constructor
    · intro h
      exact absurd h (by simp)
    · rintro ⟨hl1, hl2, hd1, hd2, -⟩
      exfalso
      have hne1 : stripL p1 ≠ [] := by intro hn; rw [hn] at hl1; simp at hl1
      have hne2 : stripL p2 ≠ [] := by intro hn; rw [hn] at hl2; simp at hl2
      rcases hc1 with h | h | h | h
      · exact h hl1
      · exact h hl2
      · exact h (by unfold pyIsDigitStrL; simp [hne1, hd1])
      · exact h (by unfold pyIsDigitStrL; simp [hne2, hd2])
  · rw [if_neg hc1]
    push_neg at hc1
    obtain ⟨hl1, hl2, hd1, hd2⟩ := hc1
    have hd1' : (stripL p1).all pyIsDigit = true := by
      unfold pyIsDigitStrL at hd1
      simp only [Bool.not_eq_true, Bool.and_eq_true, Bool.not_eq_false] at hd1
      exact hd1.2
    have hd2' : (stripL p2).all pyIsDigit = true := by
      unfold pyIsDigitStrL at hd2
      simp only [Bool.not_eq_true, Bool.and_eq_true, Bool.not_eq_false] at hd2
      exact hd2.2
    have hle : digitsVal (stripL p2) ≤ 99 := digitsVal_le_99 hl2 hd2'
    rw [show yyyy_from_two_digit (digitsVal (stripL p2)) =
        .ok (2000 + (digitsVal (stripL p2) : Int)) from by
      unfold yyyy_from_two_digit
      rw [if_neg (by push_neg; constructor <;> omega)]]
    by_cases hc2 : (digitsVal (stripL p1) : Int) < 1 ∨ (digitsVal (stripL p1) : Int) > 12
    · rw [if_pos hc2]
      constructor
      · intro h
        exact absurd h (by simp)
      · rintro ⟨-, -, -, -, hm1, hm2, -⟩
        exfalso
        rcases hc2 with h | h <;> omega
    · rw [if_neg hc2]
      push_neg at hc2
      simp only [Except.ok.injEq]
      constructor
      · intro h
        exact ⟨hl1, hl2, hd1', hd2', by omega, by omega, by omega⟩
      · rintro ⟨-, -, -, -, -, -, hv⟩
        omega

theorem mm_yy_to_ym_ok_iff (s : String) (v : Int) :
    mm_yy_to_ym s = .ok v ↔
      ∃ a b, splitChar '/' (stripL s.data) = [a, b] ∧
        (stripL a).length = 2 ∧ (stripL b).length = 2 ∧
        (stripL a).all pyIsDigit = true ∧ (stripL b).all pyIsDigit = true ∧
        1 ≤ digitsVal (stripL a) ∧ digitsVal (stripL a) ≤ 12 ∧
        v = (2000 + (digitsVal (stripL b) : Int)) * 100 + (digitsVal (stripL a) : Int) := by
  unfold mm_yy_to_ym
  by_cases he : s.data.isEmpty
  · rw [if_pos he]
    constructor
    · intro h
      exact absurd h (by simp)
    · rintro ⟨a, b, hsp, -⟩
      have hnil : s.data = [] := by simpa using he
      rw [hnil] at hsp
      simp [stripL, splitChar] at hsp
  · rw [if_neg he]
    cases hsp : splitChar '/' (stripL s.data) with
    | nil => exact absurd hsp (splitChar_ne_nil _ _)
    | cons p1 rest =>
      cases rest with
      | nil =>
        constructor
        · intro h
          exact absurd h (by simp)
        · rintro ⟨a, b, hab, -⟩
          simp at hab
      | cons p2 rest2 =>
        cases rest2 with
        | cons p3 rest3 =>
          constructor
          · intro h
            exact absurd h (by simp)
          · rintro ⟨a, b, hab, -⟩
            simp at hab
        | nil =>
          constructor
          · intro h
            obtain ⟨hl1, hl2, hd1, hd2, hm1, hm2, hv⟩ := (mm_core_iff p1 p2 v).mp h
            exact ⟨p1, p2, rfl, hl1, hl2, hd1, hd2, hm1, hm2, hv⟩
          · rintro ⟨a, b, hab, hl1, hl2, hd1, hd2, hm1, hm2, hv⟩
            obtain ⟨ha, hb⟩ : p1 = a ∧ p2 = b := by simpa using hab
            subst ha
            subst hb
            exact (mm_core_iff p1 p2 v).mpr ⟨hl1, hl2, hd1, hd2, hm1, hm2, hv⟩


theorem ym_to_mm_yy_encode (m y : Nat) (hm1 : 1 ≤ m) (hm2 : m ≤ 12) (hy : y ≤ 99) :
    ym_to_mm_yy ((2000 + (y : Int)) * 100 + (m : Int)) = .ok ⟨pad2 m ++ '/' :: pad2 y⟩ := by
  unfold ym_to_mm_yy
  rw [if_neg (by omega)]
  have hn : ((2000 + (y : Int)) * 100 + (m : Int)).toNat = (2000 + y) * 100 + m := by omega
  rw [hn]
  dsimp only
  have hdiv : ((2000 + y) * 100 + m) / 100 = 2000 + y := by omega
  have hmod : ((2000 + y) * 100 + m) % 100 = m := by omega
  rw [hdiv, hmod]
  rw [if_neg (by omega)]
  have hy100 : (2000 + y) % 100 = y := by omega
  rw [hy100]

theorem mm_yy_to_ym_decode (m y : Nat) (hm1 : 1 ≤ m) (hm2 : m ≤ 12) (hy : y ≤ 99) :
    mm_yy_to_ym ⟨pad2 m ++ '/' :: pad2 y⟩ = .ok ((2000 + (y : Int)) * 100 + (m : Int)) := by
  obtain ⟨hall1, hval1, hsl1, hsp1⟩ := pad2_props m (by omega)
  obtain ⟨hall2, hval2, hsl2, hsp2⟩ := pad2_props y (by omega)
  have hstrip : stripL (pad2 m ++ '/' :: pad2 y) = pad2 m ++ '/' :: pad2 y := by
    refine stripL_eq_self _ ?_
    intro c hc
    rcases List.mem_append.mp hc with h | h
    · exact hsp1 c h
    · rcases List.mem_cons.mp h with h | h
      · rw [h]; decide
      · exact hsp2 c h
  have hsplit : splitChar '/' (pad2 m ++ '/' :: pad2 y) = [pad2 m, pad2 y] :=
    (splitChar_eq_pair_iff '/' _ _ _).mpr ⟨hsl1, hsl2, rfl⟩
  refine (mm_yy_to_ym_ok_iff _ _).mpr ⟨pad2 m, pad2 y, ?_, ?_, ?_, ?_, ?_, ?_, ?_, ?_⟩
  · show splitChar '/' (stripL (pad2 m ++ '/' :: pad2 y)) = _
    rw [hstrip, hsplit]
  · rw [stripL_eq_self _ hsp1]; exact pad2_length m
  · rw [stripL_eq_self _ hsp2]; exact pad2_length y
  · rw [stripL_eq_self _ hsp1]; exact hall1
  · rw [stripL_eq_self _ hsp2]; exact hall2
  · rw [stripL_eq_self _ hsp1, hval1]; exact hm1
  · rw [stripL_eq_self _ hsp1, hval1]; exact hm2
  · rw [stripL_eq_self _ hsp1, stripL_eq_self _ hsp2, hval1, hval2]

/-- Round-trip: any successful parse formats back and re-parses to the
same month key. -/
theorem parse_format_roundtrip (s : String) (v : Int) (h : mm_yy_to_ym s = .ok v) :
    ∃ t, ym_to_mm_yy v = .ok t ∧ mm_yy_to_ym t = .ok v := by
  obtain ⟨a, b, hsp, hl1, hl2, hd1, hd2, hm1, hm2, hv⟩ := (mm_yy_to_ym_ok_iff s v).mp h
  have hyle : digitsVal (stripL b) ≤ 99 := digitsVal_le_99 hl2 hd2
  refine ⟨⟨pad2 (digitsVal (stripL a)) ++ '/' :: pad2 (digitsVal (stripL b))⟩, ?_, ?_⟩
  · rw [hv]
    exact ym_to_mm_yy_encode _ _ hm1 hm2 hyle
  · rw [hv]
    exact mm_yy_to_ym_decode _ _ hm1 hm2 hyle


/-- C1 (amended): with the frequency normalized by lowercasing (absent
frequency read as the empty string), the validator returns ok exactly for
the legal monthly / one_time field combinations, and returns the specific
error of each illegal combination, in the priority order of the source. -/
theorem validate_frequency_characterization (f : Option String) (s e o : Option Int) :
    (validate_line_frequency_fields f s e o = .ok () ↔
      (pyLower (f.getD "") = "monthly" ∧ s ≠ none ∧ o = none ∧
        (∀ ev ∈ e, ∀ sv ∈ s, sv ≤ ev)) ∨
      (pyLower (f.getD "") = "one_time" ∧ o ≠ none ∧ s = none ∧ e = none)) ∧
    (pyLower (f.getD "") ≠ "monthly" → pyLower (f.getD "") ≠ "one_time" →
      validate_line_frequency_fields f s e o =
        .error "frequency must be \x27monthly\x27 or \x27one_time\x27") ∧
    (pyLower (f.getD "") = "monthly" → s = none →
      validate_line_frequency_fields f s e o = .error "start_ym required for monthly") ∧
    (∀ sv ev, pyLower (f.getD "") = "monthly" → s = some sv → e = some ev → ev < sv →
      validate_line_frequency_fields f s e o = .error "end_ym must be >= start_ym") ∧
    (∀ sv, pyLower (f.getD "") = "monthly" → s = some sv → (∀ ev ∈ e, sv ≤ ev) →
      o ≠ none →
      validate_line_frequency_fields f s e o =
        .error "one_time_ym must be empty for monthly") ∧
    (pyLower (f.getD "") = "one_time" → o = none →
      validate_line_frequency_fields f s e o =
        .error "one_time_ym required for one_time") ∧
    (pyLower (f.getD "") = "one_time" → o ≠ none → (s ≠ none ∨ e ≠ none) →
      validate_line_frequency_fields f s e o =
        .error "start_ym/end_ym must be empty for one_time") := by
  refine ⟨?_, ?_, ?_, ?_, ?_, ?_, ?_⟩
  · by_cases hm : pyLower (f.getD "") = "monthly"
    · cases s with
      | none => simp [validate_line_frequency_fields, hm]
      | some sv =>
        cases e with
        | none =>
          cases o <;> simp [validate_line_frequency_fields, hm, Option.isSome]
        | some ev =>
          cases o with
          | none =>
            simp [validate_line_frequency_fields, hm, Option.isSome, Option.any]
          | some ov =>
            simp [validate_line_frequency_fields, hm, Option.isSome, Option.any]
            intro h
            split at h
            · simp at h
            · simp at h
    · by_cases ho : pyLower (f.getD "") = "one_time"
      · cases o with
        | none => simp [validate_line_frequency_fields, hm, ho]
        | some ov =>
          cases s <;> cases e <;>
            simp [validate_line_frequency_fields, hm, ho, Option.isSome, Option.isNone]
      · simp [validate_line_frequency_fields, hm, ho]
  · intro hm ho
    simp [validate_line_frequency_fields, hm, ho]
  · intro hm hs
    subst hs
    simp [validate_line_frequency_fields, hm]
  · intro sv ev hm hs he hlt
    subst hs
    subst he
    simp [validate_line_frequency_fields, hm, Option.any, hlt]
  · intro sv hm hs hev ho
    subst hs
    cases e with
    | none =>
      cases o with
      | none => exact absurd rfl ho
      | some ov => simp [validate_line_frequency_fields, hm, Option.isSome]
    | some ev =>
      have hle : sv ≤ ev := hev ev rfl
      cases o with
      | none => exact absurd rfl ho
      | some ov =>
        simp [validate_line_frequency_fields, hm, Option.any, Option.isSome]
        omega
  · intro ho hno
    subst hno
    simp [validate_line_frequency_fields, ho]
  · intro ho hno hse
    cases o with
    | none => exact absurd rfl hno
    | some ov =>
      rcases hse with h | h
      · cases s with
        | none => exact absurd rfl h
        | some sv =>
          simp [validate_line_frequency_fields, ho, Option.isSome, Option.isNone]
      · cases e with
        | none => exact absurd rfl h
        | some ev =>
          simp [validate_line_frequency_fields, ho, Option.isSome, Option.isNone]


/-- C1 counterexample: the validator lowercases the frequency, so the
string "Monthly" — neither "monthly" nor "one_time" — is accepted under
the monthly rules instead of drawing the unknown-frequency error. -/
theorem validate_frequency_case_sensitivity_cex :
    validate_line_frequency_fields (some "Monthly") (some 202501) none none = .ok () ∧
    "Monthly" ≠ "monthly" ∧ "Monthly" ≠ "one_time" :=
  ⟨by decide, by decide, by decide⟩

/-- C1 witness: the characterization applied at a concrete input. -/
theorem validate_frequency_characterization_witness :
    validate_line_frequency_fields (some "monthly") none none none =
      .error "start_ym required for monthly" :=
  (validate_frequency_characterization (some "monthly") none none none).2.2.1
    (by decide) rfl

/-- C10: the validator is insensitive to the case of the frequency string
and reads an absent frequency as the empty string; e.g. "Monthly" and
"MONTHLY" are validated under the monthly rules. -/
theorem validate_frequency_case_insensitive :
    (∀ (f : String) (s e o : Option Int),
      validate_line_frequency_fields (some f) s e o =
        validate_line_frequency_fields (some (pyLower f)) s e o) ∧
    (∀ s e o, validate_line_frequency_fields none s e o =
        validate_line_frequency_fields (some "") s e o) ∧
    validate_line_frequency_fields (some "MONTHLY") (some 202501) none none = .ok () ∧
    validate_line_frequency_fields (some "MONTHLY") none none none =
      .error "start_ym required for monthly" := by
  refine ⟨?_, ?_, by decide, by decide⟩
  · intro f s e o
    simp only [validate_line_frequency_fields, Option.getD_some, pyLower_idem]
  · intro s e o
    rfl

/-- C4 (amended): `mm_yy_to_ym s` succeeds exactly when the stripped input
splits on "/" into two parts whose stripped forms are two ASCII digits
each with the month value in 1..12, and the value is
(2000 + YY) * 100 + MM; four-digit years are rejected. -/
theorem mm_yy_parse_characterization :
    (∀ (s : String) (v : Int),
      mm_yy_to_ym s = .ok v ↔
        ∃ a b, splitChar '/' (stripL s.data) = [a, b] ∧
          (stripL a).length = 2 ∧ (stripL b).length = 2 ∧
          (stripL a).all pyIsDigit = true ∧ (stripL b).all pyIsDigit = true ∧
          1 ≤ digitsVal (stripL a) ∧ digitsVal (stripL a) ≤ 12 ∧
          v = (2000 + (digitsVal (stripL b) : Int)) * 100 + (digitsVal (stripL a) : Int)) ∧
    mm_yy_to_ym "01/25" = .ok 202501 ∧
    mm_yy_to_ym "12/30" = .ok 203012 ∧
    mm_yy_to_ym "13/25" = .error "Month must be 01–12" ∧
    mm_yy_to_ym "1/25" =
      .error "Invalid MM/YY; use two digits for month and year, e.g. \x2701/25\x27" ∧
    mm_yy_to_ym "01/2025" =
      .error "Invalid MM/YY; use two digits for month and year, e.g. \x2701/25\x27" :=
  ⟨mm_yy_to_ym_ok_iff, by decide, by decide, by decide, by decide, by decide⟩

/-- C4 counterexample: contrary to the claim, a four-digit year is
rejected ("01/2025" does not parse to 202501), and a part with inner
whitespace next to the slash is stripped per part and accepted
("01 /25" parses although "01 " is not all digits). -/
theorem mm_yy_four_digit_year_rejected_cex :
    mm_yy_to_ym "01/2025" =
      .error "Invalid MM/YY; use two digits for month and year, e.g. \x2701/25\x27" ∧
    mm_yy_to_ym "01 /25" = .ok 202501 :=
  ⟨by decide, by decide⟩

/-- C5 (amended): `ym_to_mm_yy` fails exactly when `ym < 10000` (not
100001) or the month component is outside 1..12; otherwise it emits the
two-digit month and two-digit year form. -/
theorem ym_format_characterization (ym : Int) :
    (ym < 10000 → ym_to_mm_yy ym = .error "ym must be an integer like 202501") ∧
    (10000 ≤ ym → (ym.toNat % 100 < 1 ∨ 12 < ym.toNat % 100) →
      ym_to_mm_yy ym = .error "Invalid ym month component") ∧
    (10000 ≤ ym → 1 ≤ ym.toNat % 100 → ym.toNat % 100 ≤ 12 →
      ym_to_mm_yy ym =
        .ok ⟨pad2 (ym.toNat % 100) ++ '/' :: pad2 (ym.toNat / 100 % 100)⟩) := by
  refine ⟨?_, ?_, ?_⟩
  · intro h
    unfold ym_to_mm_yy
    rw [if_pos h]
  · intro h1 h2
    unfold ym_to_mm_yy
    rw [if_neg (by omega)]
    dsimp only
    rw [if_pos (by omega)]
  · intro h1 h2 h3
    unfold ym_to_mm_yy
    rw [if_neg (by omega)]
    dsimp only
    rw [if_neg (by omega)]

/-- C5 counterexample: keys in [10000, 100000] with a valid month
component are formatted, not rejected: 10001 yields "01/00" although the
claim demands failure for every ym < 100001. -/
theorem ym_format_low_key_accepted_cex :
    ym_to_mm_yy 10001 = .ok "01/00" ∧ (10001 : Int) < 100001 :=
  ⟨by decide, by decide⟩

/-- C5 witness: the characterization applied at 202501. -/
theorem ym_format_characterization_witness :
    ym_to_mm_yy 202501 =
      .ok ⟨pad2 ((202501 : Int).toNat % 100) ++ '/' ::
        pad2 ((202501 : Int).toNat / 100 % 100)⟩ :=
  (ym_format_characterization 202501).2.2 (by decide) (by decide) (by decide)

/-- C6: for every string on which `mm_yy_to_ym` succeeds, formatting the
result back and re-parsing gives the same value as parsing the original
string. -/
theorem parse_format_parse_stable (s : String) (v : Int)
    (h : mm_yy_to_ym s = .ok v) :
    ∃ t, ym_to_mm_yy v = .ok t ∧ mm_yy_to_ym t = mm_yy_to_ym s := by
  obtain ⟨t, h1, h2⟩ := parse_format_roundtrip s v h
  exact ⟨t, h1, by rw [h2, h]⟩

/-- C6 witness: round-trip stability at "01/25". -/
theorem parse_format_parse_stable_witness :
    ∃ t, ym_to_mm_yy 202501 = .ok t ∧ mm_yy_to_ym t = mm_yy_to_ym "01/25" :=
  parse_format_parse_stable "01/25" 202501 (by decide)

theorem find?_append_singleton {α : Type} (p : α → Bool) (l : List α) (x : α)
    (hl : l.find? p = none) (hx : p x = true) : (l ++ [x]).find? p = some x := by
  induction l with
  | nil => simp [List.find?_cons, hx]
  | cons a as ih =>
    rw [List.find?_cons] at hl
    cases hpa : p a with
    | true => rw [hpa] at hl; simp at hl
    | false =>
      rw [hpa] at hl
      simp only [cond_false] at hl
      rw [List.cons_append, List.find?_cons, hpa]
      simpa using ih hl

theorem get_or_create_budget_found (db : DB) (u : Nat) (b : Budget)
    (hf : db.budgets.find? (fun bb => bb.user_id == u && bb.is_active) = some b) :
    get_or_create_budget db u = (b, db) := by
  unfold get_or_create_budget
  rw [hf]

theorem get_or_create_budget_create (db : DB) (u : Nat)
    (hf : db.budgets.find? (fun bb => bb.user_id == u && bb.is_active) = none) :
    get_or_create_budget db u =
      ({ id := db.next_budget_id, user_id := u, name := "Main", is_active := true },
       { db with
          budgets := db.budgets ++
            [{ id := db.next_budget_id, user_id := u, name := "Main",
               is_active := true }],
          next_budget_id := db.next_budget_id + 1 }) := by
  unfold get_or_create_budget
  rw [hf]

/-- C9: get-or-create-active-budget is idempotent per owner: the second
sequential call returns the same budget and leaves the store unchanged,
and the first call either changes nothing or appends exactly the one
budget it returns. -/
theorem get_or_create_budget_idempotent (db : DB) (u : Nat) :
    (get_or_create_budget (get_or_create_budget db u).2 u).1 =
      (get_or_create_budget db u).1 ∧
    (get_or_create_budget (get_or_create_budget db u).2 u).2 =
      (get_or_create_budget db u).2 ∧
    ((get_or_create_budget db u).2.budgets = db.budgets ∨
      (get_or_create_budget db u).2.budgets =
        db.budgets ++ [(get_or_create_budget db u).1]) := by
  cases hf : db.budgets.find? (fun bb => bb.user_id == u && bb.is_active) with
  | some b =>
    have h1 := get_or_create_budget_found db u b hf
    rw [h1]
    rw [show ((b, db) : Budget × DB).2 = db from rfl, h1]
    simp
  | none =>
    have h1 := get_or_create_budget_create db u hf
    have hfind2 : ({ db with
        budgets := db.budgets ++
          [({ id := db.next_budget_id, user_id := u, name := "Main",
              is_active := true } : Budget)],
        next_budget_id := db.next_budget_id + 1 } : DB).budgets.find?
          (fun bb => bb.user_id == u && bb.is_active) =
        some { id := db.next_budget_id, user_id := u, name := "Main",
               is_active := true } :=
      find?_append_singleton _ _ _ hf (by simp)
    have h2 := get_or_create_budget_found _ u _ hfind2
    rw [h1]
    dsimp only
    rw [h2]
    simp


/-! ## Import loop characterizations -/

theorem lines_import_rows_spec (bid : Nat) (fns : List String)
    (rows : List (List String)) (idx : Nat) :
    lines_import_rows bid fns rows idx =
      (rows.filterMap (fun r => (process_line_row bid fns r).toOption),
       (List.enumFrom idx rows).filterMap (fun p =>
         match process_line_row bid fns p.2 with
         | .ok _ => none
         | .error e => some ("Row " ++ toString p.1 ++ ": " ++ e))) := by
  induction rows generalizing idx with
  | nil => rfl
  | cons r rest ih =>
    simp only [lines_import_rows, ih]
    cases hpr : process_line_row bid fns r with
    | ok line => simp [List.enumFrom, hpr, Except.toOption]
    | error e => simp [List.enumFrom, hpr, Except.toOption]

theorem tx_import_rows_spec (bid : Nat) (rows : List (List String)) (idx : Nat) :
    tx_import_rows bid rows idx =
      (rows.filterMap (fun r => (process_tx_row bid r).toOption),
       (List.enumFrom (idx + 1) rows).filterMap (fun p =>
         match process_tx_row bid p.2 with
         | .ok _ => none
         | .error e => some ("Row " ++ toString p.1 ++ ": " ++ e))) := by
  induction rows generalizing idx with
  | nil => rfl
  | cons r rest ih =>
    simp only [tx_import_rows, ih]
    cases hpr : process_tx_row bid r with
    | ok t => simp [List.enumFrom, hpr, Except.toOption]
    | error e => simp [List.enumFrom, hpr, Except.toOption]

/-- C3: after a passing header, each budget-line row is processed
independently: every rejected row contributes exactly one
"Row n: reason" message in input order, every successful row's entity is
appended to the store even when other rows fail, and the reply is the
pair of the created count and the ordered rejection list. -/
theorem lines_import_partial_success (u : Nat) (fns : List String)
    (rows : List (List String)) (db : DB)
    (h : REQUIRED_COLS.all (fun c => fns.contains c) = true) :
    lines_import_submit u (some fns) rows db =
      (.done (rows.filterMap (fun r =>
            (process_line_row (get_or_create_budget db u).1.id fns r).toOption)).length
        ((List.enumFrom 2 rows).filterMap (fun p =>
          match process_line_row (get_or_create_budget db u).1.id fns p.2 with
          | .ok _ => none
          | .error e => some ("Row " ++ toString p.1 ++ ": " ++ e))),
       { (get_or_create_budget db u).2 with
          budget_lines := (get_or_create_budget db u).2.budget_lines ++
            rows.filterMap (fun r =>
              (process_line_row (get_or_create_budget db u).1.id fns r).toOption) }) := by
  unfold lines_import_submit
  dsimp only
  rw [if_pos h, lines_import_rows_spec]


/-- C3 witness: the partial-success shape applied at a concrete batch of
one valid and one invalid row. -/
theorem lines_import_partial_success_witness :
    REQUIRED_COLS.all (fun c => REQUIRED_COLS.contains c) = true ∧
    lines_import_submit 1 (some REQUIRED_COLS) wrows db0 =
      (.done (wrows.filterMap (fun r =>
            (process_line_row (get_or_create_budget db0 1).1.id REQUIRED_COLS r).toOption)).length
        ((List.enumFrom 2 wrows).filterMap (fun p =>
          match process_line_row (get_or_create_budget db0 1).1.id REQUIRED_COLS p.2 with
          | .ok _ => none
          | .error e => some ("Row " ++ toString p.1 ++ ": " ++ e))),
       { (get_or_create_budget db0 1).2 with
          budget_lines := (get_or_create_budget db0 1).2.budget_lines ++
            wrows.filterMap (fun r =>
              (process_line_row (get_or_create_budget db0 1).1.id REQUIRED_COLS r).toOption) }) :=
  ⟨by decide, lines_import_partial_success 1 REQUIRED_COLS wrows db0 (by decide)⟩

/-- C7 (amended): both importers tag the i-th data row (0-indexed) as
"Row (i+2)": the budget-line importer enumerates from 2 (header is row
1), and the transaction importer starts its counter at 1 but increments
it before first use, so its first data row is also tagged 2. -/
theorem import_row_numbering :
    (∀ (u : Nat) (fns : List String) (rows : List (List String)) (db : DB),
      REQUIRED_COLS.all (fun c => fns.contains c) = true →
      (lines_import_submit u (some fns) rows db).1 =
        .done (rows.filterMap (fun r =>
            (process_line_row (get_or_create_budget db u).1.id fns r).toOption)).length
          ((List.enumFrom 2 rows).filterMap (fun p =>
            match process_line_row (get_or_create_budget db u).1.id fns p.2 with
            | .ok _ => none
            | .error e => some ("Row " ++ toString p.1 ++ ": " ++ e)))) ∧
    (∀ (u : Nat) (rows : List (List String)) (db : DB),
      (tx_import_submit u (EXPECTED_HEADER :: rows) db).1 =
        .done (rows.filterMap (fun r =>
            (process_tx_row (get_or_create_budget db u).1.id r).toOption)).length
          ((List.enumFrom 2 rows).filterMap (fun p =>
            match process_tx_row (get_or_create_budget db u).1.id p.2 with
            | .ok _ => none
            | .error e => some ("Row " ++ toString p.1 ++ ": " ++ e)))) := by
  constructor
  · intro u fns rows db h
    rw [lines_import_partial_success u fns rows db h]
  · intro u rows db
    unfold tx_import_submit
    dsimp only
    rw [if_pos rfl, tx_import_rows_spec]

/-- C7 counterexample: the transaction importer tags its first data row
"Row 2", not "Row 1" as the claim states. -/
theorem tx_first_row_tagged_two_cex :
    (tx_import_submit 1 [EXPECTED_HEADER, ["", "", "", "", "", "", ""]] db0).1 =
      .done 0 ["Row 2: date is required (YYYY-MM-DD)"] ∧
    (tx_import_submit 1 [EXPECTED_HEADER, ["", "", "", "", "", "", ""]] db0).1 ≠
      .done 0 ["Row 1: date is required (YYYY-MM-DD)"] :=
  ⟨by decide, by decide⟩

/-- C7 witness: the numbering shape applied at a concrete batch. -/
theorem import_row_numbering_witness :
    REQUIRED_COLS.all (fun c => REQUIRED_COLS.contains c) = true ∧
    (lines_import_submit 1 (some REQUIRED_COLS) [["", "", "", "", "", "", "", "", ""]] db0).1 =
      .done ([["", "", "", "", "", "", "", "", ""]].filterMap (fun r =>
          (process_line_row (get_or_create_budget db0 1).1.id REQUIRED_COLS r).toOption)).length
        ((List.enumFrom 2 [["", "", "", "", "", "", "", "", ""]]).filterMap (fun p =>
          match process_line_row (get_or_create_budget db0 1).1.id REQUIRED_COLS p.2 with
          | .ok _ => none
          | .error e => some ("Row " ++ toString p.1 ++ ": " ++ e))) :=
  ⟨by decide,
   import_row_numbering.1 1 REQUIRED_COLS [["", "", "", "", "", "", "", "", ""]] db0
     (by decide)⟩

/-- C2 (amended): the transaction import demands the exact ordered
expected header and on mismatch aborts with nothing persisted; the
budget-line import aborts with nothing persisted when the header is
missing or lacks a required column, but accepts any header containing all
required columns — supersets and reorderings included. -/
theorem header_check_characterization :
    (∀ (u : Nat) (header : List String) (dataRows : List (List String)) (db : DB),
      header ≠ EXPECTED_HEADER →
      tx_import_submit u (header :: dataRows) db = (.headerMismatch, db)) ∧
    (∀ (u : Nat) (rows : List (List String)) (db : DB),
      lines_import_submit u none rows db = (.headerMismatch, db)) ∧
    (∀ (u : Nat) (fns : List String) (rows : List (List String)) (db : DB),
      (∃ c ∈ REQUIRED_COLS, fns.contains c = false) →
      lines_import_submit u (some fns) rows db = (.headerMismatch, db)) ∧
    (∀ (u : Nat) (fns : List String) (rows : List (List String)) (db : DB),
      (∀ c ∈ REQUIRED_COLS, fns.contains c = true) →
      ∃ n errs, (lines_import_submit u (some fns) rows db).1 = .done n errs) := by
  refine ⟨?_, ?_, ?_, ?_⟩
  · intro u header dataRows db h
    unfold tx_import_submit
    dsimp only
    rw [if_neg h]
  · intro u rows db
    rfl
  · intro u fns rows db h
    unfold lines_import_submit
    dsimp only
    rw [if_neg (by
      rw [List.all_eq_true]
      push_neg
      obtain ⟨c, hc1, hc2⟩ := h
      exact ⟨c, hc1, by simpa using hc2⟩)]
  · intro u fns rows db h
    unfold lines_import_submit
    dsimp only
    rw [if_pos (by rw [List.all_eq_true]; exact h)]
    exact ⟨_, _, rfl⟩

/-- C2 counterexample: a header that is a strict superset of the required
budget-line columns is accepted and its valid data row is imported, where
the claim demands a header mismatch with nothing persisted. -/
theorem lines_header_superset_accepted_cex :
    (lines_import_submit 1 (some (REQUIRED_COLS ++ ["extra"]))
        [["income", "Salary", "", "1000", "EUR", "monthly", "01/25", "12/25", ""]]
        db0).1 = .done 1 [] ∧
    REQUIRED_COLS ++ ["extra"] ≠ REQUIRED_COLS :=
  ⟨by decide, by decide⟩

/-- C2 witness: the mismatch behaviour applied at a concrete wrong
transaction header. -/
theorem header_check_characterization_witness :
    (["x"] : List String) ≠ EXPECTED_HEADER ∧
    tx_import_submit 1 [["x"]] db0 = (.headerMismatch, db0) :=
  ⟨by decide, header_check_characterization.1 1 ["x"] [] db0 (by decide)⟩


/-! ## The ym / txn_date invariant -/

theorem process_tx_row_inv (bid : Nat) (cells : List String) (t : Transaction)
    (h : process_tx_row bid cells = .ok t) :
    t.ym = (t.txn_date.year : Int) * 100 + t.txn_date.month := by
  unfold process_tx_row at h
  dsimp only at h
  repeat' split at h
  all_goals simp_all [create_transaction, ym_from_date]
  all_goals subst h
  all_goals rfl

theorem tx_import_rows_inv (bid : Nat) (rows : List (List String)) (idx : Nat) :
    ∀ t ∈ (tx_import_rows bid rows idx).1,
      t.ym = (t.txn_date.year : Int) * 100 + t.txn_date.month := by
  intro t ht
  rw [tx_import_rows_spec] at ht
  obtain ⟨cells, -, hpr⟩ := List.mem_filterMap.mp ht
  cases hc : process_tx_row bid cells with
  | ok t2 =>
    rw [hc] at hpr
    simp only [Except.toOption] at hpr
    cases hpr
    exact process_tx_row_inv bid cells _ hc
  | error e =>
    rw [hc] at hpr
    simp [Except.toOption] at hpr

theorem get_or_create_budget_transactions (db : DB) (u : Nat) :
    (get_or_create_budget db u).2.transactions = db.transactions := by
  unfold get_or_create_budget
  cases hf : db.budgets.find? (fun bb => bb.user_id == u && bb.is_active) with
  | some b => rfl
  | none => rfl

/-- C8: the stored month key always equals `txn_date.year * 100 +
txn_date.month`: `create_transaction` (reached from the form and the
service API) derives it from the supplied date, every transaction in the
store after a CSV import satisfies it (given the store did before), and
`edit_submit_core` preserves it on every path, success or failure. -/
theorem transaction_ym_consistency :
    (∀ (bid : Nat) (ty : LineType) (cat : String) (sub : Option String)
        (amt : Rat) (cur : String) (d : PyDate) (nts : Option String),
      (create_transaction bid ty cat sub amt cur d nts).ym =
        ((create_transaction bid ty cat sub amt cur d nts).txn_date.year : Int) * 100 +
          (create_transaction bid ty cat sub amt cur d nts).txn_date.month) ∧
    (∀ (u : Nat) (records : List (List String)) (db : DB),
      (∀ t ∈ db.transactions,
        t.ym = (t.txn_date.year : Int) * 100 + t.txn_date.month) →
      ∀ t ∈ (tx_import_submit u records db).2.transactions,
        t.ym = (t.txn_date.year : Int) * 100 + t.txn_date.month) ∧
    (∀ (txn : Transaction) (f : TxnForm),
      txn.ym = (txn.txn_date.year : Int) * 100 + txn.txn_date.month →
      (edit_submit_core txn f).2.ym =
        ((edit_submit_core txn f).2.txn_date.year : Int) * 100 +
          (edit_submit_core txn f).2.txn_date.month) := by
  refine ⟨?_, ?_, ?_⟩
  · intro bid ty cat sub amt cur d nts
    rfl
  · intro u records db hinv t ht
    cases records with
    | nil => exact hinv t ht
    | cons header dataRows =>
      unfold tx_import_submit at ht
      dsimp only at ht
      by_cases hh : header = EXPECTED_HEADER
      · rw [if_pos hh] at ht
        dsimp only at ht
        rcases List.mem_append.mp ht with hmem | hmem
        · rw [get_or_create_budget_transactions] at hmem
          exact hinv t hmem
        · exact tx_import_rows_inv _ _ _ t hmem
      · rw [if_neg hh] at ht
        exact hinv t ht
  · intro txn f hinv
    unfold edit_submit_core
    dsimp only
    cases hlt : lineTypeOf (pyLower (pyStrip (f.type.getD ""))) with
    | error e => simpa using hinv
    | ok ty =>
      cases hfl : pyFloat (if f.amount.getD "" = "" then "0" else f.amount.getD "") with
      | error e => simpa using hinv
      | ok a =>
        cases hiso : fromisoformat (pyStrip (f.txn_date.getD "")) with
        | error e => simpa using hinv
        | ok d =>
          by_cases hcat : pyStrip (f.category.getD "") = ""
          · simp [hcat, ym_from_date]
          · simp [hcat, ym_from_date]

/-- C8 witness: the edit path applied at a concrete transaction and form. -/
theorem transaction_ym_consistency_witness :
    txn0.ym = (txn0.txn_date.year : Int) * 100 + txn0.txn_date.month ∧
    (edit_submit_core txn0 form0).2.ym =
      ((edit_submit_core txn0 form0).2.txn_date.year : Int) * 100 +
        (edit_submit_core txn0 form0).2.txn_date.month :=
  ⟨by decide, transaction_ym_consistency.2.2 txn0 form0 (by decide)⟩

end Accountant
